import Mathlib

/-!
Verification of the pulp_cookbook plugin (`pulp_cookbook/app/viewsets.py`).

The file embeds the two decision procedures of the plugin:

* `CookbookPackageContentViewSet.create` — content admission: validates a
  request carrying an artifact reference, a name and an optional version
  against the metadata embedded in the cookbook archive, and persists a
  content record inside one atomic transaction.

* `RepositoryPublishURLSerializer.validate` and
  `CookbookPublisherViewSet.publish` — publish-target resolution and task
  dispatch: resolve a request naming a repository or a repository version
  to exactly one repository version, then enqueue the publish task with a
  reservation keyed on (owning repository, publisher).

Collaborators that live outside the embedded source file
(`CookbookMetadata.from_cookbook_file`, `RepositoryVersion.latest`,
the content serializer) are modelled from the specification and are marked
as such in their doc comments.
-/

namespace PulpCookbook

/-- A cookbook metadata record as extracted from the descriptor file
embedded in a cookbook archive: a version string and a dependency mapping
(dependency name to version constraint). -/
structure CookbookMetadata where
  version : String
  dependencies : List (String × String)
deriving DecidableEq, Repr

/-- The content of a cookbook archive, as far as metadata extraction is
concerned: the embedded metadata records keyed by cookbook name. -/
abbrev CookbookFile := List (String × CookbookMetadata)

/-- An artifact: an opaque stored blob; the admission path only looks at
its underlying file. -/
structure Artifact where
  file : CookbookFile

/-- Modelled from the spec: the metadata-extraction primitive
`CookbookMetadata.from_cookbook_file(file, name)` of `pulp_cookbook.metadata`
(not part of the embedded source file).  It locates the descriptor record
for the declared `name` inside the archive; if no matching record exists it
fails (the Python primitive raises `FileNotFoundError`), here Option.none. -/
def from_cookbook_file (file : CookbookFile) (name : String) :
    Option CookbookMetadata :=
  (List.find? (fun p => p.1 = name) file).map (fun p => p.2)

/-- The admission request payload `request.data`: a dict with optional
keys `artifact`, `name` and `version`.  A missing key is `none`
(`data[k]` raising `KeyError` in Python). -/
structure RequestData where
  artifact : Option Artifact
  name : Option String
  version : Option String

/-- The structured validation errors raised by
`CookbookPackageContentViewSet.create` (Python `serializers.ValidationError`
with a per-field detail dict). -/
inductive AdmissionError
  /-- `{field: "This field is required"}` -/
  | missingField (field : String)
  /-- `{"artifact": "No metadata.json found in cookbook tar"}` -/
  | invalidArtifact
  /-- `{"version": "version does not correspond to version in cookbook tar"}` -/
  | versionMismatch
  /-- rejection by `serializer.is_valid(raise_exception=True)` -/
  | serializerInvalid
deriving DecidableEq, Repr

/-- A persisted cookbook content record (`CookbookPackageContent`), with
its bound artifact. -/
structure CookbookPackageContent where
  name : String
  version : String
  dependencies : List (String × String)
  artifact : Option Artifact

/-- The persistent store of content records that admission writes into. -/
abbrev ContentState := List CookbookPackageContent

/-- The body of `CookbookPackageContentViewSet.create`, translated
step by step from the Python source:

1. `data['artifact']` missing raises `{'artifact': required}`;
2. `data['name']` missing raises `{'name': required}` (evaluated before
   the extraction call);
3. `from_cookbook_file` failing raises `{'artifact': no metadata.json}`;
4. a supplied `data['version']` different from `metadata.version` raises
   `{'version': mismatch}`; an absent `version` skips the check;
5. `data['version'] = metadata.version`, then the serializer validates and
   saves the record with `dependencies=metadata.dependencies`, and the
   artifact is bound to the new record.

`serValid` stands for the content serializer (modelled from the spec: the
serializer of `CookbookPackageContentSerializer` is not part of the
embedded source file; it is abstracted as a predicate on the name and the
resolved version).  The result carries the created record and the new
store contents. -/
def createBody (serValid : String → String → Bool) (st : ContentState)
    (data : RequestData) :
    Except AdmissionError (CookbookPackageContent × ContentState) :=
  match data.artifact with
  | none => .error (.missingField "artifact")
  | some artifact =>
    match data.name with
    | none => .error (.missingField "name")
    | some name =>
      match from_cookbook_file artifact.file name with
      | none => .error .invalidArtifact
      | some metadata =>
        let versionOk : Bool :=
          match data.version with
          | some v => v = metadata.version
          | none => true
        if versionOk then
          if serValid name metadata.version then
            let content : CookbookPackageContent :=
              { name := name
                version := metadata.version
                dependencies := metadata.dependencies
                artifact := some artifact }
            .ok (content, st ++ [content])
          else .error .serializerInvalid
        else .error .versionMismatch

/-- The `@transaction.atomic` decorator (Django collaborator): if the body
raises, every write of the transaction is rolled back and the store is
left as it was. -/
def transactionAtomic {α : Type} (st : ContentState)
    (r : Except AdmissionError (α × ContentState)) :
    Except AdmissionError α × ContentState :=
  match r with
  | .error e => (.error e, st)
  | .ok (a, st') => (.ok a, st')

/-- `CookbookPackageContentViewSet.create`: the admission entry point,
its body run under `transaction.atomic`. -/
def create (serValid : String → String → Bool) (st : ContentState)
    (data : RequestData) :
    Except AdmissionError CookbookPackageContent × ContentState :=
  transactionAtomic st (createBody serValid st data)

/-- A repository (external collaborator object); identified by its pk. -/
structure Repository where
  pk : Nat
deriving DecidableEq, Repr

/-- A repository version: an immutable snapshot owned by a repository,
with an ordering number. -/
structure RepositoryVersion where
  pk : Nat
  repository : Repository
  number : Nat
deriving DecidableEq, Repr

/-- The versions existing in the system (the `RepositoryVersion` table). -/
abbrev VersionTable := List RepositoryVersion

/-- Modelled from the spec: the ordered list of versions owned by a
repository (a repository has zero or more ordered versions). -/
def repositoryVersions (env : VersionTable) (r : Repository) :
    List RepositoryVersion :=
  List.filter (fun v => v.repository = r) env

/-- Modelled from the spec: the collaborator
`RepositoryVersion.latest(repository)` (pulpcore, not part of the embedded
source file): the latest version of the repository if at least one exists,
else `None`. -/
def latest (env : VersionTable) (r : Repository) : Option RepositoryVersion :=
  (repositoryVersions env r).getLast?

/-- The publish request payload handled by
`_RepositoryPublishURLSerializer`: optional `repository` and
`repository_version` fields (a resolved model object is always truthy in
Python, so `not field` is exactly absence, i.e. `none`). -/
structure PublishData where
  repository : Option Repository
  repository_version : Option RepositoryVersion
deriving DecidableEq, Repr

/-- The validation errors raised by `_RepositoryPublishURLSerializer.validate`. -/
inductive PublishTargetError
  /-- "Either the repository or repository_version need to be specified" -/
  | neitherSpecified
  /-- "Either the repository or repository_version need to be specified but not both" -/
  | bothSpecified
  /-- "Repository has no version available to publish" -/
  | noVersionAvailable
deriving DecidableEq, Repr

/-- `_RepositoryPublishURLSerializer.validate`, translated from the Python
if/elif chain: neither field → error; only `repository_version` → return
the data unchanged; only `repository` → look up the latest version and
insert it (`new_data = {'repository_version': version}; new_data.update(data)`,
and `data` has no `repository_version` key in this branch) or fail when the
repository has no version; both → error. -/
def RepositoryPublishURLSerializer.validate (env : VersionTable)
    (data : PublishData) : Except PublishTargetError PublishData :=
  match data.repository, data.repository_version with
  | none, none => .error .neitherSpecified
  | none, some _ => .ok data
  | some r, none =>
    match latest env r with
    | some version => .ok { data with repository_version := some version }
    | none => .error .noVersionAvailable
  | some _, some _ => .error .bothSpecified

/-- A publisher (external collaborator object); identified by its pk. -/
structure Publisher where
  pk : Nat
deriving DecidableEq, Repr

/-- A resource named in the reservation list passed to
`apply_async_with_reservation`. -/
inductive ReservationTarget
  | repositoryTarget (r : Repository)
  | publisherTarget (p : Publisher)
deriving DecidableEq, Repr

/-- The dispatch call built by `CookbookPublisherViewSet.publish`: the
reservation list and the string-serialized task kwargs. -/
structure DispatchCall where
  reservations : List ReservationTarget
  publisher_pk : String
  repository_version_pk : String
deriving DecidableEq, Repr

/-- Failures of the publish entry point: a validation error from the
serializer, or a `None` dereference when the validated data carries no
repository version (Python `AttributeError` on
`repository_version.repository`). -/
inductive PublishError
  | validation (e : PublishTargetError)
  | noneDereference
deriving DecidableEq, Repr

/-- `CookbookPublisherViewSet.publish`: validate the request, take
`validated_data.get('repository_version')`, and dispatch the publish task
with the reservation list `[repository_version.repository, publisher]` and
kwargs `str(publisher.pk)` and `str(repository_version.pk)`. -/
def publish (env : VersionTable) (publisher : Publisher)
    (data : PublishData) : Except PublishError DispatchCall :=
  match RepositoryPublishURLSerializer.validate env data with
  | .error e => .error (.validation e)
  | .ok vd =>
    match vd.repository_version with
    | none => .error .noneDereference
    | some version =>
      .ok { reservations := [.repositoryTarget version.repository,
                             .publisherTarget publisher]
            publisher_pk := toString publisher.pk
            repository_version_pk := toString version.pk }

/-! ## Theorems for the claims -/

/-- A successful run of the admission body produces exactly the record
built from the declared name, the extracted version and the extracted
dependencies, bound to the artifact, and appends it to the store. -/
theorem createBody_ok_shape (serValid : String → String → Bool)
    (st : ContentState) (data : RequestData) (a : Artifact) (n : String)
    (md : CookbookMetadata)
    (ha : data.artifact = some a) (hn : data.name = some n)
    (hmd : from_cookbook_file a.file n = some md)
    (c : CookbookPackageContent) (st' : ContentState)
    (h : createBody serValid st data = .ok (c, st')) :
    c = { name := n, version := md.version,
          dependencies := md.dependencies, artifact := some a } ∧
      st' = st ++ [c] := by
  simp only [createBody, ha, hn, hmd] at h
  split at h
  · split at h
    · simp only [Except.ok.injEq, Prod.mk.injEq] at h
      refine ⟨h.1.symm, ?_⟩
      rw [← h.2, h.1]
    · exact absurd h (by simp)
  · exact absurd h (by simp)

/-- C1: for every admission request that succeeds, the created content
record's `version` equals the extracted metadata's version and its
`dependencies` are taken verbatim from the extracted metadata; the
extracted value overrides whatever the caller declared. -/
theorem claim_C1_extracted_metadata_authoritative
    (serValid : String → String → Bool) (st : ContentState)
    (data : RequestData) (a : Artifact) (n : String) (md : CookbookMetadata)
    (ha : data.artifact = some a) (hn : data.name = some n)
    (hmd : from_cookbook_file a.file n = some md)
    (c : CookbookPackageContent)
    (hok : (create serValid st data).1 = .ok c) :
    c.version = md.version ∧ c.dependencies = md.dependencies := by
  rcases hbody : createBody serValid st data with e | ⟨c', st'⟩
  · simp [create, transactionAtomic, hbody] at hok
  · have hshape := createBody_ok_shape serValid st data a n md ha hn hmd
      c' st' hbody
    have hc : c' = c := by
      simpa [create, transactionAtomic, hbody] using hok
    subst hc
    rw [hshape.1]
    exact ⟨rfl, rfl⟩

/-- C1 witness: a concrete successful admission whose record carries the
extracted version and dependencies. -/
theorem claim_C1_witness :
    ((create (fun _ _ => true) []
        { artifact := some ⟨[("apt", ⟨"1.2.0", [("other", ">=1.0")]⟩)]⟩
          name := some "apt"
          version := none }).1 = .ok
      { name := "apt", version := "1.2.0",
        dependencies := [("other", ">=1.0")],
        artifact := some ⟨[("apt", ⟨"1.2.0", [("other", ">=1.0")]⟩)]⟩ }) ∧
    "1.2.0" = "1.2.0" ∧ [("other", ">=1.0")] = [("other", ">=1.0")] := by
  refine ⟨rfl, ?_⟩
  exact claim_C1_extracted_metadata_authoritative (fun _ _ => true) []
    { artifact := some ⟨[("apt", ⟨"1.2.0", [("other", ">=1.0")]⟩)]⟩
      name := some "apt", version := none }
    ⟨[("apt", ⟨"1.2.0", [("other", ">=1.0")]⟩)]⟩ "apt"
    ⟨"1.2.0", [("other", ">=1.0")]⟩ rfl rfl rfl _ rfl

/-- C2: a caller-supplied `version` different from the extracted version
makes admission fail with the version-mismatch error on the `version`
field, leaving the store unchanged; when the caller omits `version` the
check is skipped entirely (that error can never occur). -/
theorem claim_C2_version_mismatch :
    (∀ (serValid : String → String → Bool) (st : ContentState)
        (data : RequestData) (a : Artifact) (n v : String)
        (md : CookbookMetadata),
      data.artifact = some a → data.name = some n →
      data.version = some v → from_cookbook_file a.file n = some md →
      v ≠ md.version →
      create serValid st data = (.error .versionMismatch, st)) ∧
    (∀ (serValid : String → String → Bool) (st : ContentState)
        (data : RequestData),
      data.version = none →
      (create serValid st data).1 ≠ .error .versionMismatch) := by
  constructor
  · intro serValid st data a n v md ha hn hv hmd hne
    simp [create, transactionAtomic, createBody, ha, hn, hv, hmd, hne]
  · intro serValid st data hv
    rcases ha : data.artifact with _ | a
    · simp [create, transactionAtomic, createBody, ha]
    · rcases hn : data.name with _ | n
      · simp [create, transactionAtomic, createBody, ha, hn]
      · rcases hmd : from_cookbook_file a.file n with _ | md
        · simp [create, transactionAtomic, createBody, ha, hn, hmd]
        · by_cases hs : serValid n md.version = true <;>
            simp [create, transactionAtomic, createBody, ha, hn, hmd, hv, hs]

/-- C2 witness: admission with declared version "9.9.9" against embedded
version "1.2.0" fails with the version-mismatch error and an unchanged
store, and admission with no declared version never raises it. -/
theorem claim_C2_witness :
    (create (fun _ _ => true) []
        { artifact := some ⟨[("apt", ⟨"1.2.0", []⟩)]⟩
          name := some "apt", version := some "9.9.9" } =
      (.error .versionMismatch, [])) ∧
    ((create (fun _ _ => true) []
        { artifact := some ⟨[("apt", ⟨"1.2.0", []⟩)]⟩
          name := some "apt", version := none }).1 ≠
      .error .versionMismatch) := by
  constructor
  · exact claim_C2_version_mismatch.1 (fun _ _ => true) []
      { artifact := some ⟨[("apt", ⟨"1.2.0", []⟩)]⟩
        name := some "apt", version := some "9.9.9" }
      ⟨[("apt", ⟨"1.2.0", []⟩)]⟩ "apt" "9.9.9" ⟨"1.2.0", []⟩
      rfl rfl rfl rfl (by decide)
  · exact claim_C2_version_mismatch.2 (fun _ _ => true) []
      { artifact := some ⟨[("apt", ⟨"1.2.0", []⟩)]⟩
        name := some "apt", version := none } rfl

/-- C3: admission is all-or-nothing: whenever the call fails with a
validation error, the persistent store after the call equals the store
before the call. -/
theorem claim_C3_admission_all_or_nothing
    (serValid : String → String → Bool) (st : ContentState)
    (data : RequestData) (e : AdmissionError)
    (herr : (create serValid st data).1 = .error e) :
    (create serValid st data).2 = st := by
  rcases hbody : createBody serValid st data with e' | p
  · simp [create, transactionAtomic, hbody]
  · simp [create, transactionAtomic, hbody] at herr

/-- C3 witness: a failing admission (missing artifact) leaves a concrete
store unchanged. -/
theorem claim_C3_witness :
    ((create (fun _ _ => true)
        [{ name := "old", version := "0.1.0", dependencies := [],
           artifact := none }]
        { artifact := none, name := none, version := none }).1 =
      .error (.missingField "artifact")) ∧
    ((create (fun _ _ => true)
        [{ name := "old", version := "0.1.0", dependencies := [],
           artifact := none }]
        { artifact := none, name := none, version := none }).2 =
      [{ name := "old", version := "0.1.0", dependencies := [],
         artifact := none }]) :=
  ⟨rfl, claim_C3_admission_all_or_nothing (fun _ _ => true)
    [{ name := "old", version := "0.1.0", dependencies := [],
       artifact := none }]
    { artifact := none, name := none, version := none }
    (.missingField "artifact") rfl⟩

/-- C7: when the artifact and the name are supplied but metadata
extraction produces no record for the declared name, admission fails with
the invalid-artifact error, regardless of the declared version, and the
store is unchanged. -/
theorem claim_C7_extraction_failure_invalid_artifact
    (serValid : String → String → Bool) (st : ContentState)
    (data : RequestData) (a : Artifact) (n : String)
    (ha : data.artifact = some a) (hn : data.name = some n)
    (hmd : from_cookbook_file a.file n = none) :
    create serValid st data = (.error .invalidArtifact, st) := by
  simp [create, transactionAtomic, createBody, ha, hn, hmd]

/-- C7 witness: an archive with no record for the declared name is
rejected as an invalid artifact even though a version was declared. -/
theorem claim_C7_witness :
    from_cookbook_file [] "apt" = none ∧
    create (fun _ _ => true) []
        { artifact := some ⟨[]⟩, name := some "apt",
          version := some "1.0.0" } =
      (.error .invalidArtifact, []) :=
  ⟨rfl, claim_C7_extraction_failure_invalid_artifact (fun _ _ => true) []
    { artifact := some ⟨[]⟩, name := some "apt", version := some "1.0.0" }
    ⟨[]⟩ "apt" rfl rfl rfl⟩

/-- C9: required fields are checked in order with short-circuit: a missing
`artifact` is reported alone (whatever `name` and `version` hold), and a
missing `name` with `artifact` present is reported as the name error. -/
theorem claim_C9_missing_field_short_circuit :
    (∀ (serValid : String → String → Bool) (st : ContentState)
        (data : RequestData),
      data.artifact = none →
      create serValid st data = (.error (.missingField "artifact"), st)) ∧
    (∀ (serValid : String → String → Bool) (st : ContentState)
        (data : RequestData) (a : Artifact),
      data.artifact = some a → data.name = none →
      create serValid st data = (.error (.missingField "name"), st)) := by
  constructor
  · intro serValid st data ha
    simp [create, transactionAtomic, createBody, ha]
  · intro serValid st data a ha hn
    simp [create, transactionAtomic, createBody, ha, hn]

/-- C9 witness: a request missing both fields reports only the artifact
error, and a request missing only the name reports the name error. -/
theorem claim_C9_witness :
    (create (fun _ _ => true) []
        { artifact := none, name := none, version := none } =
      (.error (.missingField "artifact"), [])) ∧
    (create (fun _ _ => true) []
        { artifact := some ⟨[]⟩, name := none, version := none } =
      (.error (.missingField "name"), [])) :=
  ⟨claim_C9_missing_field_short_circuit.1 (fun _ _ => true) []
      { artifact := none, name := none, version := none } rfl,
    claim_C9_missing_field_short_circuit.2 (fun _ _ => true) []
      { artifact := some ⟨[]⟩, name := none, version := none } ⟨[]⟩ rfl rfl⟩

/-- C4: the publish-target resolver raises an ambiguous-target error
exactly when the request does not name exactly one target: both fields
absent gives the "neither" error, both present gives the "both" error,
and with exactly one field present neither of those errors can occur. -/
theorem claim_C4_ambiguous_target_characterization :
    (∀ (env : VersionTable) (data : PublishData),
      data.repository = none → data.repository_version = none →
      RepositoryPublishURLSerializer.validate env data =
        .error .neitherSpecified) ∧
    (∀ (env : VersionTable) (data : PublishData) (r : Repository)
        (v : RepositoryVersion),
      data.repository = some r → data.repository_version = some v →
      RepositoryPublishURLSerializer.validate env data =
        .error .bothSpecified) ∧
    (∀ (env : VersionTable) (data : PublishData),
      RepositoryPublishURLSerializer.validate env data =
          .error .neitherSpecified →
      data.repository = none ∧ data.repository_version = none) ∧
    (∀ (env : VersionTable) (data : PublishData),
      RepositoryPublishURLSerializer.validate env data =
          .error .bothSpecified →
      data.repository ≠ none ∧ data.repository_version ≠ none) := by
  refine ⟨?_, ?_, ?_, ?_⟩
  · intro env data hr hv
    simp [RepositoryPublishURLSerializer.validate, hr, hv]
  · intro env data r v hr hv
    simp [RepositoryPublishURLSerializer.validate, hr, hv]
  · intro env data h
    rcases hr : data.repository with _ | r <;>
      rcases hv : data.repository_version with _ | v <;>
        simp [RepositoryPublishURLSerializer.validate, hr, hv] at h ⊢
    rcases hl : latest env r with _ | version <;> simp [hl] at h
  · intro env data h
    rcases hr : data.repository with _ | r <;>
      rcases hv : data.repository_version with _ | v <;>
        simp [RepositoryPublishURLSerializer.validate, hr, hv] at h ⊢
    rcases hl : latest env r with _ | version <;> simp [hl] at h

/-- C4 witness: the resolver at concrete inputs: both absent gives the
"neither" error, both present gives the "both" error. -/
theorem claim_C4_witness :
    (RepositoryPublishURLSerializer.validate []
        { repository := none, repository_version := none } =
      .error .neitherSpecified) ∧
    (RepositoryPublishURLSerializer.validate []
        { repository := some ⟨1⟩,
          repository_version := some ⟨5, ⟨1⟩, 1⟩ } =
      .error .bothSpecified) :=
  ⟨claim_C4_ambiguous_target_characterization.1 []
      { repository := none, repository_version := none } rfl rfl,
    claim_C4_ambiguous_target_characterization.2.1 []
      { repository := some ⟨1⟩, repository_version := some ⟨5, ⟨1⟩, 1⟩ }
      ⟨1⟩ ⟨5, ⟨1⟩, 1⟩ rfl rfl⟩

/-- C5: a publish request that supplies only `repository_version` resolves
to exactly that version, with the data returned unchanged, for every state
of the version table (the repository's version list is never consulted). -/
theorem claim_C5_repository_version_passthrough
    (env : VersionTable) (v : RepositoryVersion) :
    RepositoryPublishURLSerializer.validate env
        { repository := none, repository_version := some v } =
      .ok { repository := none, repository_version := some v } := rfl

/-- C6: a publish request that supplies only `repository` resolves to the
repository's latest version when the repository has at least one version,
and fails with the no-version-available error when it has none. -/
theorem claim_C6_repository_latest_or_no_version
    (env : VersionTable) (r : Repository) :
    (repositoryVersions env r ≠ [] →
      ∃ v, latest env r = some v ∧
        RepositoryPublishURLSerializer.validate env
            { repository := some r, repository_version := none } =
          .ok { repository := some r, repository_version := some v }) ∧
    (repositoryVersions env r = [] →
      RepositoryPublishURLSerializer.validate env
          { repository := some r, repository_version := none } =
        .error .noVersionAvailable) := by
  constructor
  · intro hne
    rcases hl : latest env r with _ | v
    · exact absurd (List.getLast?_eq_none_iff.mp hl) hne
    · exact ⟨v, rfl, by simp [RepositoryPublishURLSerializer.validate, hl]⟩
  · intro hnil
    have hl : latest env r = none := by
      simp [latest, hnil]
    simp [RepositoryPublishURLSerializer.validate, hl]

/-- C6 witness: a repository with versions resolves to its latest
version; a repository with no versions fails. -/
theorem claim_C6_witness :
    (repositoryVersions [⟨5, ⟨1⟩, 1⟩, ⟨6, ⟨1⟩, 2⟩] ⟨1⟩ ≠ [] ∧
      ∃ v, latest [⟨5, ⟨1⟩, 1⟩, ⟨6, ⟨1⟩, 2⟩] ⟨1⟩ = some v ∧
        RepositoryPublishURLSerializer.validate [⟨5, ⟨1⟩, 1⟩, ⟨6, ⟨1⟩, 2⟩]
            { repository := some ⟨1⟩, repository_version := none } =
          .ok { repository := some ⟨1⟩, repository_version := some v }) ∧
    (repositoryVersions [] ⟨1⟩ = [] ∧
      RepositoryPublishURLSerializer.validate []
          { repository := some ⟨1⟩, repository_version := none } =
        .error .noVersionAvailable) :=
  ⟨⟨by decide,
      (claim_C6_repository_latest_or_no_version
        [⟨5, ⟨1⟩, 1⟩, ⟨6, ⟨1⟩, 2⟩] ⟨1⟩).1 (by decide)⟩,
    ⟨rfl, (claim_C6_repository_latest_or_no_version [] ⟨1⟩).2 rfl⟩⟩

/-- C8: every successfully resolved publish request dispatches the task
with the reservation list consisting of exactly the owning repository of
the resolved version and the publisher, and with the string-serialized
primary keys of the publisher and the resolved version as arguments. -/
theorem claim_C8_dispatch_reservation_and_args
    (env : VersionTable) (pub : Publisher) (data vd : PublishData)
    (version : RepositoryVersion)
    (hval : RepositoryPublishURLSerializer.validate env data = .ok vd)
    (hv : vd.repository_version = some version) :
    publish env pub data =
      .ok { reservations := [.repositoryTarget version.repository,
                             .publisherTarget pub]
            publisher_pk := toString pub.pk
            repository_version_pk := toString version.pk } := by
  simp [publish, hval, hv]

/-- C8 witness: a concrete publish request dispatches with the owning
repository and the publisher as reservation targets and the stringified
primary keys as arguments. -/
theorem claim_C8_witness :
    (RepositoryPublishURLSerializer.validate []
        { repository := none, repository_version := some ⟨5, ⟨1⟩, 1⟩ } =
      .ok { repository := none, repository_version := some ⟨5, ⟨1⟩, 1⟩ }) ∧
    publish [] ⟨7⟩ { repository := none,
                     repository_version := some ⟨5, ⟨1⟩, 1⟩ } =
      .ok { reservations := [.repositoryTarget ⟨1⟩, .publisherTarget ⟨7⟩],
            publisher_pk := "7", repository_version_pk := "5" } :=
  ⟨rfl, claim_C8_dispatch_reservation_and_args [] ⟨7⟩
    { repository := none, repository_version := some ⟨5, ⟨1⟩, 1⟩ }
    { repository := none, repository_version := some ⟨5, ⟨1⟩, 1⟩ }
    ⟨5, ⟨1⟩, 1⟩ rfl rfl⟩

/-- C10: whenever publish-request validation succeeds, the validated data
carries a repository version, so the dispatcher never dereferences an
absent value (its none-dereference failure is unreachable). -/
theorem claim_C10_validated_version_always_present :
    (∀ (env : VersionTable) (data vd : PublishData),
      RepositoryPublishURLSerializer.validate env data = .ok vd →
      vd.repository_version ≠ none) ∧
    (∀ (env : VersionTable) (pub : Publisher) (data : PublishData),
      publish env pub data ≠ .error .noneDereference) := by
  have hmain : ∀ (env : VersionTable) (data vd : PublishData),
      RepositoryPublishURLSerializer.validate env data = .ok vd →
      vd.repository_version ≠ none := by
    intro env data vd h
    rcases hr : data.repository with _ | r <;>
      rcases hv : data.repository_version with _ | v <;>
        simp only [RepositoryPublishURLSerializer.validate, hr, hv] at h
    · exact absurd h (by simp)
    · have hdv : data = vd := by simpa using h
      rw [← hdv, hv]
      simp
    · rcases hl : latest env r with _ | version <;> rw [hl] at h
      · exact absurd h (by simp)
      · have hdv : ({ repository := some r,
                      repository_version := some version } : PublishData) =
            vd := by
          simpa using h
        rw [← hdv]
        simp
    · exact absurd h (by simp)
  refine ⟨hmain, ?_⟩
  intro env pub data
  rcases hval : RepositoryPublishURLSerializer.validate env data with e | vd
  · simp [publish, hval]
  · rcases hv : vd.repository_version with _ | version
    · exact absurd hv (hmain env data vd hval)
    · simp [publish, hval, hv]

/-- C10 witness: a concrete successful validation carries a repository
version, and a concrete publish call does not fail by dereferencing an
absent version. -/
theorem claim_C10_witness :
    ((RepositoryPublishURLSerializer.validate [⟨5, ⟨1⟩, 1⟩]
        { repository := some ⟨1⟩, repository_version := none } =
      .ok { repository := some ⟨1⟩, repository_version := some ⟨5, ⟨1⟩, 1⟩ })
      ∧ (some ⟨5, ⟨1⟩, 1⟩ : Option RepositoryVersion) ≠ none) ∧
    publish [⟨5, ⟨1⟩, 1⟩] ⟨7⟩
        { repository := some ⟨1⟩, repository_version := none } ≠
      .error .noneDereference :=
  ⟨⟨rfl, claim_C10_validated_version_always_present.1 [⟨5, ⟨1⟩, 1⟩]
      { repository := some ⟨1⟩, repository_version := none }
      { repository := some ⟨1⟩, repository_version := some ⟨5, ⟨1⟩, 1⟩ } rfl⟩,
    claim_C10_validated_version_always_present.2 [⟨5, ⟨1⟩, 1⟩] ⟨7⟩
      { repository := some ⟨1⟩, repository_version := none }⟩

end PulpCookbook
